import Mathlib

/-!
Verification of the whisper transcription tool module.

The repository has two layers:
* a transcription client (`WhisperTranscriber` in `core.py`, not present in the
  sources available here; its operations `transcribe` and `estimate_cost` are
  modelled from the specification), and
* a tool adapter (`WhisperTool` in `whisper_tool.py`), embedded here from the
  source.

Python values relevant to the adapter's input dictionary are modelled by
`PyValue`; file paths are plain strings; monetary amounts and durations are
rationals (the spec defines cost arithmetic mathematically).
-/

set_option autoImplicit false

namespace Whisper

/-- A Python value as it may appear in the adapter's input/config dictionary. -/
inductive PyValue where
  | vNone : PyValue
  | vStr : String → PyValue
  | vInt : Int → PyValue
deriving DecidableEq

/-- Python truthiness of a `PyValue` (`if not audio_path:` in the adapter). -/
def PyValue.truthy : PyValue → Bool
  | .vNone => false
  | .vStr s => !(s == "")
  | .vInt n => !(n == 0)

/-- A Python dict with string keys, as an association list. -/
abbrev Dict := List (String × PyValue)

/-- `d.get(k)`: the value at key `k`, or Python `None` when the key is absent. -/
def dictGet (d : Dict) (k : String) : PyValue :=
  match d.find? (fun kv => kv.1 == k) with
  | some kv => kv.2
  | none => .vNone

/-- `d.get(k, dflt)`: the value at key `k`, or `dflt` when the key is absent. -/
def dictGetD (d : Dict) (k : String) (dflt : PyValue) : PyValue :=
  match d.find? (fun kv => kv.1 == k) with
  | some kv => kv.2
  | none => dflt

/-- `Path(p).expanduser()` restricted to the home-relative forms `~` and `~/...`
exercised by this module; any other path is returned unchanged. `home` is the
current user's home directory. -/
def expanduser (home : String) (p : String) : String :=
  match p.data with
  | ['~'] => home
  | '~' :: '/' :: rest => home ++ "/" ++ String.mk rest
  | _ => p

/-- `Path(p).is_absolute()` on POSIX: the path starts with a slash. -/
def isAbsolute (p : String) : Bool :=
  match p.data with
  | [] => false
  | c :: _ => c == '/'

/-- One timestamped fragment of a transcript (`TranscriptSegment` in `core.py`). -/
structure TranscriptSegment where
  id : Int
  start : ℚ
  end_ : ℚ
  text : String
deriving DecidableEq

/-- The normalized output of a transcription call (`Transcript` in `core.py`). -/
structure Transcript where
  text : String
  language : Option String
  duration : Option ℚ
  segments : List TranscriptSegment
deriving DecidableEq

/-! ## Transcription client, modelled from the spec

`core.py` is not among the sources; the client below is modelled from the
specification (§4.1) and constrained by the repository's tests. -/

/-- Raw remote-service response: text, optional language and duration, and an
ordered list of segments. -/
structure RemoteResponse where
  text : String
  language : Option String
  duration : Option ℚ
  segments : List TranscriptSegment
deriving DecidableEq

/-- Outcome of one remote transcription attempt: success, a transient failure
(network error, rate limit, 5xx-equivalent), or a non-transient (fatal)
failure (auth failure, non-rate-limit 4xx-equivalent). -/
inductive RemoteOutcome where
  | success : RemoteResponse → RemoteOutcome
  | transient : String → RemoteOutcome
  | fatal : String → RemoteOutcome
deriving DecidableEq

/-- The client's error kinds (spec §7). -/
inductive TranscribeError where
  | configurationError : String → TranscribeError
  | fileNotFoundError : String → TranscribeError
  | validationError : String → TranscribeError
  | transcriptionError : String → TranscribeError
deriving DecidableEq

/-- The message carried by a client error. -/
def TranscribeError.msg : TranscribeError → String
  | .configurationError m => m
  | .fileNotFoundError m => m
  | .validationError m => m
  | .transcriptionError m => m

/-- Modelled from the spec: mapping of a raw response into a `Transcript` —
text, optional language/duration, and each segment preserved verbatim. -/
def mkTranscript (r : RemoteResponse) : Transcript :=
  ⟨r.text, r.language, r.duration, r.segments⟩

/-- The remote service's hard file-size limit: 25 MiB. -/
def MAX_FILE_SIZE : Nat := 25 * 1024 * 1024

/-- The filesystem as seen by the client: each existing file's size in bytes. -/
abbrev FileSys := String → Option Nat

/-- Modelled from the spec: the bounded retry loop of `transcribe`. `backend i`
is the outcome of remote attempt number `i`; `i` is the current attempt index
and the second argument the number of retries still allowed. Returns the
result together with the number of remote attempts actually issued. A
transient failure is retried while retries remain; a fatal failure and an
exhausted transient failure both surface as `transcriptionError` carrying the
underlying failure's message. -/
def runAttempts (backend : Nat → RemoteOutcome) (i : Nat) :
    Nat → Except TranscribeError Transcript × Nat
  | 0 =>
    match backend i with
    | .success r => (.ok (mkTranscript r), 1)
    | .transient m => (.error (.transcriptionError m), 1)
    | .fatal m => (.error (.transcriptionError m), 1)
  | r + 1 =>
    match backend i with
    | .success resp => (.ok (mkTranscript resp), 1)
    | .transient _ =>
      ((runAttempts backend (i + 1) r).1, (runAttempts backend (i + 1) r).2 + 1)
    | .fatal m => (.error (.transcriptionError m), 1)

/-- Modelled from the spec: `WhisperTranscriber.transcribe` (`core.py` is not in
the sources). Validates existence and the 25 MiB size limit before any network
call, then issues up to `1 + max_retries` attempts via `runAttempts`. Returns
the result together with the number of remote attempts issued (0 when
validation fails). -/
def transcribe (fs : FileSys) (backend : Nat → RemoteOutcome)
    (audio_path : String) (max_retries : Nat) :
    Except TranscribeError Transcript × Nat :=
  match fs audio_path with
  | none => (.error (.fileNotFoundError ("Audio file not found: " ++ audio_path)), 0)
  | some size =>
    if MAX_FILE_SIZE < size then
      (.error (.validationError ("Audio file too large: exceeds 25 MiB limit")), 0)
    else
      runAttempts backend 0 max_retries

/-- The published per-minute rate of the default model: 0.006 USD per minute. -/
def WHISPER_RATE_PER_MINUTE : ℚ := 6 / 1000

/-- Modelled from the spec: `WhisperTranscriber.estimate_cost`. Fails with a
`validationError` on negative input, otherwise returns
`duration_seconds / 60 * rate_per_minute`. -/
def estimate_cost (duration_seconds : ℚ) : Except TranscribeError ℚ :=
  if duration_seconds < 0 then
    .error (.validationError "Duration must be non-negative")
  else
    .ok (duration_seconds / 60 * WHISPER_RATE_PER_MINUTE)

/-- The cost the spec's envelope contract prescribes: 0 when the duration is
unknown, otherwise `estimate_cost` of the duration. -/
def specCost : Option ℚ → ℚ
  | none => 0
  | some d => d / 60 * WHISPER_RATE_PER_MINUTE

/-! ## Tool adapter (`whisper_tool.py`) -/

/-- A Python exception as the adapter sees it: whether it is a `ValueError`
(or subclass), its class name (`type(e).__name__`), and its message
(`str(e)`). -/
structure PyExc where
  isValueError : Bool
  className : String
  msg : String
deriving DecidableEq

/-- The `error` dictionary of a failed `ToolResult`. -/
structure ToolError where
  message : String
  type : String
deriving DecidableEq

/-- One entry of the adapter's `output["segments"]` list. -/
structure SegmentDict where
  id : Int
  start : ℚ
  end_ : ℚ
  text : String
deriving DecidableEq

/-- The adapter's `output` dictionary on success. -/
structure ExecOutput where
  text : String
  segments : List SegmentDict
  duration : Option ℚ
  language : Option String
  cost : ℚ
deriving DecidableEq

/-- The host framework's result envelope. -/
structure ToolResult where
  success : Bool
  output : Option ExecOutput
  error : Option ToolError
deriving DecidableEq

/-- The `except ValueError` / `except Exception` clauses of
`WhisperTool.execute`: a `ValueError`-kind failure is reported with type
`"ValueError"`, any other with its own class name; both carry the message. -/
def excResult (e : PyExc) : ToolResult :=
  ⟨false, none, some ⟨e.msg, if e.isValueError then "ValueError" else e.className⟩⟩

/-- The adapter's cost step: `cost = 0.0; if transcript.duration: cost =
self.transcriber.estimate_cost(transcript.duration)`. A duration of `None` or
`0` is falsy, so the estimator is skipped; a raised estimator error (a
`ValueError` in the implementation) propagates to the handlers. -/
def costOf (duration : Option ℚ) : Except PyExc ℚ :=
  match duration with
  | none => .ok 0
  | some d =>
    if d = 0 then .ok 0
    else
      match estimate_cost d with
      | .ok c => .ok c
      | .error e => .error ⟨true, "ValueError", e.msg⟩

/-- `TypeError` message raised by `Path(x)` on a non-string argument. -/
def pathTypeErrorMsg : String :=
  "argument should be a str or an os.PathLike object"

/-- The required-field failure returned when `audio_path` is missing or falsy. -/
def requiredErr : ToolResult :=
  ⟨false, none, some ⟨"audio_path is required", "ValueError"⟩⟩

/-- Body of `WhisperTool.execute` after `input.get("audio_path")` has been
read into `ap`. `tf` is the client call `self.transcriber.transcribe` on the
expanded path, returning a `Transcript` or raising. The second component
records the path the client was called on (`none` = client never called).
Falsy `ap` (`None`, `""`, `0`) returns the required-field error; a truthy
non-string makes `Path(ap)` raise `TypeError`, caught by `except Exception`. -/
def executeCore (home : String) (tf : String → Except PyExc Transcript)
    (ap : PyValue) : ToolResult × Option String :=
  match ap with
  | .vNone => (requiredErr, none)
  | .vStr s =>
    if s = "" then (requiredErr, none)
    else
      match tf (expanduser home s) with
      | .error e => (excResult e, some (expanduser home s))
      | .ok t =>
        match costOf t.duration with
        | .error e => (excResult e, some (expanduser home s))
        | .ok c =>
          (⟨true,
            some ⟨t.text,
              t.segments.map (fun sg => ⟨sg.id, sg.start, sg.end_, sg.text⟩),
              t.duration, t.language, c⟩,
            none⟩,
           some (expanduser home s))
  | .vInt n =>
    if n = 0 then (requiredErr, none)
    else (excResult ⟨false, "TypeError", pathTypeErrorMsg⟩, none)

/-- `WhisperTool.execute`: reads `audio_path` from the input dict and runs the
body. `language`, `prompt` and `max_retries` are read by `.get` (which cannot
raise) and passed through to the client, which `tf` abstracts. -/
def execute (home : String) (tf : String → Except PyExc Transcript)
    (input : Dict) : ToolResult × Option String :=
  executeCore home tf (dictGet input "audio_path")

/-! ## `WhisperTool.__init__` filesystem effect -/

/-- Path components of `p` (empty components dropped). -/
def splitPath (p : String) : List String :=
  (p.splitOn "/").filter (fun c => !(c == ""))

/-- All nonempty component prefixes of `p`: the directory itself and every
ancestor, as created by `mkdir(parents=True, exist_ok=True)`. -/
def dirPrefixes (p : String) : List (List String) :=
  (splitPath p).inits.filter (fun l => !l.isEmpty)

/-- `Path(p).mkdir(parents=True, exist_ok=True)` on a directory set. -/
def mkdirParents (dirs : List (List String)) (p : String) : List (List String) :=
  dirPrefixes p ++ dirs

/-- Default `output_dir` configuration value. -/
def DEFAULT_OUTPUT_DIR : String := "~/transcripts"

/-- `WhisperTool.__init__`: resolves `output_dir` from the optional config
(default `"~/transcripts"`), expands `~`, and creates the directory with all
parents before anything else. Returns the expanded `output_dir` and the new
directory set, or `none` when `Path(...)` raises on a non-string config
value. The transcriber is constructed afterwards; no transcription happens. -/
def whisperToolInit (home : String) (config : Option Dict)
    (dirs : List (List String)) : Option (String × List (List String)) :=
  match dictGetD (config.getD []) "output_dir" (.vStr DEFAULT_OUTPUT_DIR) with
  | .vStr s =>
    let od := expanduser home s
    some (od, mkdirParents dirs od)
  | _ => none

/-! ## Retry-loop lemmas -/

theorem runAttempts_success_eq (backend : Nat → RemoteOutcome) (i r : Nat)
    (resp : RemoteResponse) (h : backend i = RemoteOutcome.success resp) :
    runAttempts backend i r = (.ok (mkTranscript resp), 1) := by
  cases r <;> simp [runAttempts, h]

theorem runAttempts_fatal_eq (backend : Nat → RemoteOutcome) (i r : Nat)
    (m : String) (h : backend i = RemoteOutcome.fatal m) :
    runAttempts backend i r = (.error (.transcriptionError m), 1) := by
  cases r <;> simp [runAttempts, h]

theorem runAttempts_transient_zero (backend : Nat → RemoteOutcome) (i : Nat)
    (m : String) (h : backend i = RemoteOutcome.transient m) :
    runAttempts backend i 0 = (.error (.transcriptionError m), 1) := by
  simp [runAttempts, h]

/-- Skipping `k` leading transient attempts shifts the loop by `k` and adds
`k` to the attempt count. -/
theorem runAttempts_shift (backend : Nat → RemoteOutcome) :
    ∀ (k i r : Nat), k ≤ r →
      (∀ j, j < k → ∃ m, backend (i + j) = RemoteOutcome.transient m) →
      runAttempts backend i r =
        ((runAttempts backend (i + k) (r - k)).1,
         (runAttempts backend (i + k) (r - k)).2 + k) := by
  intro k
  induction k with
  | zero => intro i r _ _; simp
  | succ k ih =>
    intro i r hk htr
    obtain ⟨r0, rfl⟩ : ∃ r0, r = r0 + 1 := ⟨r - 1, by omega⟩
    obtain ⟨m, hm⟩ := htr 0 (Nat.succ_pos k)
    rw [Nat.add_zero] at hm
    have step : runAttempts backend i (r0 + 1) =
        ((runAttempts backend (i + 1) r0).1,
         (runAttempts backend (i + 1) r0).2 + 1) := by
      simp [runAttempts, hm]
    rw [step, ih (i + 1) r0 (by omega) (fun j hj => by
      have hj1 := htr (j + 1) (by omega)
      rwa [show i + (j + 1) = i + 1 + j by omega] at hj1)]
    rw [show i + 1 + k = i + (k + 1) by omega,
      show r0 - k = r0 + 1 - (k + 1) by omega]
    simp [Nat.add_assoc]

/-- C2: for every valid audio file (existing, within the size limit), if the
remote call is transient on attempts `1..k` (`k < max_retries`) and succeeds on
attempt `k+1`, `transcribe` returns the successful `Transcript` after exactly
`k+1` attempts; and if all `1 + max_retries` attempts are transient,
`transcribe` fails with a `transcriptionError` carrying the last underlying
failure's message after exactly `max_retries + 1` attempts. -/
theorem transcribe_transient_retry (fs : FileSys) (backend : Nat → RemoteOutcome)
    (p : String) (size : Nat) (max_retries : Nat)
    (hfs : fs p = some size) (hsize : size ≤ MAX_FILE_SIZE) :
    (∀ k resp, k < max_retries →
      (∀ i, i < k → ∃ m, backend i = RemoteOutcome.transient m) →
      backend k = RemoteOutcome.success resp →
      transcribe fs backend p max_retries = (.ok (mkTranscript resp), k + 1)) ∧
    (∀ mlast, (∀ i, i < max_retries → ∃ m, backend i = RemoteOutcome.transient m) →
      backend max_retries = RemoteOutcome.transient mlast →
      transcribe fs backend p max_retries =
        (.error (.transcriptionError mlast), max_retries + 1)) := by
  have hbase : transcribe fs backend p max_retries = runAttempts backend 0 max_retries := by
    unfold transcribe
    rw [hfs]
    simp [Nat.not_lt.mpr hsize]
  constructor
  · intro k resp hk htr hs
    rw [hbase, runAttempts_shift backend k 0 max_retries (le_of_lt hk)
      (fun j hj => by simpa using htr j hj),
      runAttempts_success_eq backend (0 + k) _ resp (by simpa using hs)]
    simp [Nat.add_comm]
  · intro mlast htr hlast
    rw [hbase, runAttempts_shift backend max_retries 0 max_retries le_rfl
      (fun j hj => by simpa using htr j hj), Nat.sub_self,
      runAttempts_transient_zero backend (0 + max_retries) mlast (by simpa using hlast)]
    simp [Nat.add_comm]

/-- Witness for C2 at a concrete file and backend: one transient failure then
success (2 attempts), and exhaustion with `max_retries = 2` (3 attempts). -/
theorem transcribe_transient_retry_witness :
    transcribe (fun q => if q == "/a.mp3" then some 100 else none)
      (fun i => if i == 0 then RemoteOutcome.transient "net down"
        else RemoteOutcome.success ⟨"hello", some "en", some 10, []⟩)
      "/a.mp3" 3 = (.ok (mkTranscript ⟨"hello", some "en", some 10, []⟩), 2) ∧
    transcribe (fun q => if q == "/a.mp3" then some 100 else none)
      (fun _ => RemoteOutcome.transient "still down")
      "/a.mp3" 2 = (.error (.transcriptionError "still down"), 3) := by
  constructor
  · exact (transcribe_transient_retry _ _ "/a.mp3" 100 3 rfl (by decide)).1 1
      ⟨"hello", some "en", some 10, []⟩ (by omega)
      (fun i hi => ⟨"net down", by
        have h0 : i = 0 := by omega
        subst h0; rfl⟩)
      rfl
  · exact (transcribe_transient_retry _ _ "/a.mp3" 100 2 rfl (by decide)).2
      "still down" (fun i _ => ⟨"still down", rfl⟩) rfl

/-- C3: for every valid audio file, a non-transient (fatal) failure on the
first attempt makes `transcribe` fail immediately with exactly one attempt
made — no retry. -/
theorem transcribe_fatal_immediate (fs : FileSys) (backend : Nat → RemoteOutcome)
    (p : String) (size : Nat) (max_retries : Nat) (m : String)
    (hfs : fs p = some size) (hsize : size ≤ MAX_FILE_SIZE)
    (hfatal : backend 0 = RemoteOutcome.fatal m) :
    transcribe fs backend p max_retries = (.error (.transcriptionError m), 1) := by
  unfold transcribe
  rw [hfs]
  simp [Nat.not_lt.mpr hsize, runAttempts_fatal_eq backend 0 max_retries m hfatal]

/-- Witness for C3: an auth-style fatal failure on attempt 1 with
`max_retries = 3` yields one attempt and an immediate error. -/
theorem transcribe_fatal_immediate_witness :
    transcribe (fun q => if q == "/a.mp3" then some 100 else none)
      (fun _ => RemoteOutcome.fatal "invalid api key")
      "/a.mp3" 3 = (.error (.transcriptionError "invalid api key"), 1) :=
  transcribe_fatal_immediate _ _ "/a.mp3" 100 3 "invalid api key" rfl (by decide) rfl

/-- C4: for every existing file whose size exceeds 25 MiB, `transcribe` fails
with a `validationError` mentioning that the file is too large, and performs
zero network calls. -/
theorem transcribe_too_large (fs : FileSys) (backend : Nat → RemoteOutcome)
    (p : String) (size : Nat) (max_retries : Nat)
    (hfs : fs p = some size) (hsize : MAX_FILE_SIZE < size) :
    transcribe fs backend p max_retries =
      (.error (.validationError "Audio file too large: exceeds 25 MiB limit"), 0) := by
  unfold transcribe
  rw [hfs]
  simp [hsize]

/-- Witness for C4: a 26 MiB file is rejected with zero attempts. -/
theorem transcribe_too_large_witness :
    transcribe (fun q => if q == "/big.mp3" then some (26 * 1024 * 1024) else none)
      (fun _ => RemoteOutcome.success ⟨"x", none, none, []⟩)
      "/big.mp3" 3 =
      (.error (.validationError "Audio file too large: exceeds 25 MiB limit"), 0) :=
  transcribe_too_large _ _ "/big.mp3" (26 * 1024 * 1024) 3 rfl (by decide)

/-- C5: `estimate_cost` is a pure function computing
`duration_seconds / 60 * rate_per_minute` on every non-negative input
(hence `estimate_cost 60 = 0.006`, `estimate_cost 600 = 0.06`,
`estimate_cost 30 = 0.003`, `estimate_cost 0 = 0` at the default rate),
and fails with a `validationError` on every negative input. -/
theorem estimate_cost_spec :
    (∀ d : ℚ, 0 ≤ d → estimate_cost d = .ok (d / 60 * WHISPER_RATE_PER_MINUTE)) ∧
    estimate_cost 60 = .ok (6 / 1000) ∧
    estimate_cost 600 = .ok (6 / 100) ∧
    estimate_cost 30 = .ok (3 / 1000) ∧
    estimate_cost 0 = .ok 0 ∧
    (∀ d : ℚ, d < 0 → ∃ msg, estimate_cost d = .error (.validationError msg)) := by
  refine ⟨?_, ?_, ?_, ?_, ?_, ?_⟩
  · intro d hd
    simp [estimate_cost, not_lt.mpr hd]
  · norm_num [estimate_cost, WHISPER_RATE_PER_MINUTE]
  · norm_num [estimate_cost, WHISPER_RATE_PER_MINUTE]
  · norm_num [estimate_cost, WHISPER_RATE_PER_MINUTE]
  · norm_num [estimate_cost, WHISPER_RATE_PER_MINUTE]
  · intro d hd
    exact ⟨"Duration must be non-negative", by simp [estimate_cost, hd]⟩

/-- Witness for C5: the formula at 10 seconds, and failure at −1. -/
theorem estimate_cost_spec_witness :
    estimate_cost 10 = .ok (10 / 60 * WHISPER_RATE_PER_MINUTE) ∧
    ∃ msg, estimate_cost (-1) = .error (.validationError msg) :=
  ⟨estimate_cost_spec.1 10 (by norm_num),
   estimate_cost_spec.2.2.2.2.2 (-1) (by norm_num)⟩

/-! ## Adapter theorems -/

/-- C1: for every input mapping and every behavior of the transcription
client, `execute` returns a structured `ToolResult` — success with an output,
or failure with a `message`/`type` error record — and never propagates a
fault; a `ValueError`-kind client failure is reported with type `"ValueError"`
and the failure's message, and any other client failure with its own class
name and message. -/
theorem execute_structured_errors (home : String)
    (tf : String → Except PyExc Transcript) (input : Dict) :
    ((execute home tf input).1.success = true ∧
       ((execute home tf input).1.output).isSome = true ∧
       (execute home tf input).1.error = none ∨
     (execute home tf input).1.success = false ∧
       (execute home tf input).1.output = none ∧
       ∃ err : ToolError, (execute home tf input).1.error = some err) ∧
    (∀ s e, dictGet input "audio_path" = PyValue.vStr s → ¬ s = "" →
      tf (expanduser home s) = Except.error e →
      (execute home tf input).1 =
        ⟨false, none,
          some ⟨e.msg, if e.isValueError then "ValueError" else e.className⟩⟩) := by
  constructor
  · unfold execute
    cases h : dictGet input "audio_path" with
    | vNone => simp [executeCore, requiredErr]
    | vStr s =>
      by_cases hs : s = ""
      · simp [executeCore, hs, requiredErr]
      · cases htf : tf (expanduser home s) with
        | error e => simp [executeCore, hs, htf, excResult]
        | ok t =>
          cases hc : costOf t.duration with
          | error e => simp [executeCore, hs, htf, hc, excResult]
          | ok c => simp [executeCore, hs, htf, hc]
    | vInt n =>
      by_cases hn : n = 0
      · simp [executeCore, hn, requiredErr]
      · simp [executeCore, hn, excResult]
  · intro s e hs hne htf
    unfold execute
    rw [hs]
    simp [executeCore, hne, htf, excResult]

/-- Witness for C1: a non-`ValueError` client failure is reported under its
own class name with its message. -/
theorem execute_structured_errors_witness :
    (execute "/home/u"
        (fun _ => Except.error ⟨false, "APIConnectionError", "boom"⟩)
        [("audio_path", PyValue.vStr "/a.mp3")]).1 =
      ⟨false, none, some ⟨"boom", "APIConnectionError"⟩⟩ := by
  have h := (execute_structured_errors "/home/u"
    (fun _ => Except.error ⟨false, "APIConnectionError", "boom"⟩)
    [("audio_path", PyValue.vStr "/a.mp3")]).2 "/a.mp3"
    ⟨false, "APIConnectionError", "boom"⟩ rfl (by decide) rfl
  simpa using h

/-- C6: for every input mapping with no `audio_path` key, `execute` returns
`success = false` with message `"audio_path is required"` and type
`"ValueError"`, and the client's `transcribe` is never called (second
component `none`). -/
theorem execute_missing_audio_path (home : String)
    (tf : String → Except PyExc Transcript) (input : Dict)
    (h : input.find? (fun kv => kv.1 == "audio_path") = none) :
    execute home tf input =
      (⟨false, none, some ⟨"audio_path is required", "ValueError"⟩⟩, none) := by
  unfold execute
  have hd : dictGet input "audio_path" = PyValue.vNone := by
    simp [dictGet, h]
  rw [hd]
  rfl

/-- Witness for C6: the empty input mapping. -/
theorem execute_missing_audio_path_witness :
    execute "/home/u" (fun _ => Except.ok ⟨"", none, none, []⟩) [] =
      (⟨false, none, some ⟨"audio_path is required", "ValueError"⟩⟩, none) :=
  execute_missing_audio_path "/home/u" _ [] rfl

/-- C10: an `audio_path` value that is falsy (`""`, `None`, or `0`) is treated
exactly like a missing key: `execute` returns the required-field `ValueError`
and never calls the client, expands no path and checks no existence. -/
theorem execute_falsy_audio_path (home : String)
    (tf : String → Except PyExc Transcript) (input : Dict)
    (h : (dictGet input "audio_path").truthy = false) :
    execute home tf input =
      (⟨false, none, some ⟨"audio_path is required", "ValueError"⟩⟩, none) := by
  unfold execute
  cases hap : dictGet input "audio_path" with
  | vNone => rfl
  | vStr s =>
    rw [hap] at h
    simp [PyValue.truthy] at h
    simp [executeCore, h, requiredErr]
  | vInt n =>
    rw [hap] at h
    simp [PyValue.truthy] at h
    simp [executeCore, h, requiredErr]

/-- Witness for C10: an empty-string `audio_path`. -/
theorem execute_falsy_audio_path_witness :
    execute "/home/u" (fun _ => Except.ok ⟨"", none, none, []⟩)
      [("audio_path", PyValue.vStr "")] =
      (⟨false, none, some ⟨"audio_path is required", "ValueError"⟩⟩, none) :=
  execute_falsy_audio_path "/home/u" _ [("audio_path", PyValue.vStr "")] (by decide)

/-- C7: on a successful transcription (with a well-formed, non-negative
duration when present), the envelope has `success = true` and an output
carrying the transcript's text, its segments mapped field-for-field in order
to `{id, start, end, text}` records, its duration and language, and a cost
that is 0 when the duration is unknown and `estimate_cost duration`
otherwise. -/
theorem execute_success_envelope (home : String)
    (tf : String → Except PyExc Transcript) (input : Dict) (s : String)
    (t : Transcript)
    (hs : dictGet input "audio_path" = PyValue.vStr s) (hne : ¬ s = "")
    (hok : tf (expanduser home s) = Except.ok t)
    (hdur : t.duration = none ∨ ∃ d, t.duration = some d ∧ 0 ≤ d) :
    (execute home tf input).1 =
      ⟨true,
        some ⟨t.text,
          t.segments.map (fun sg => ⟨sg.id, sg.start, sg.end_, sg.text⟩),
          t.duration, t.language, specCost t.duration⟩,
        none⟩ := by
  have hc : costOf t.duration = .ok (specCost t.duration) := by
    rcases hdur with h | ⟨d, hd, hdpos⟩
    · simp [costOf, specCost, h]
    · rw [hd]
      by_cases h0 : d = 0
      · subst h0
        simp [costOf, specCost]
      · simp [costOf, specCost, h0, estimate_cost, not_lt.mpr hdpos,
          WHISPER_RATE_PER_MINUTE]
  unfold execute
  rw [hs]
  simp [executeCore, hne, hok, hc]

/-- Witness for C7: a one-segment transcript with duration `21/2` seconds. -/
theorem execute_success_envelope_witness :
    (execute "/home/u"
        (fun _ => Except.ok ⟨"Test transcript", some "en", some (21/2),
          [⟨0, 0, 21/2, "Test transcript"⟩]⟩)
        [("audio_path", PyValue.vStr "/a.mp3")]).1 =
      ⟨true,
        some ⟨"Test transcript", [⟨0, 0, 21/2, "Test transcript"⟩],
          some (21/2), some "en", specCost (some (21/2))⟩,
        none⟩ := by
  have h := execute_success_envelope "/home/u"
    (fun _ => Except.ok ⟨"Test transcript", some "en", some (21/2),
      [⟨0, 0, 21/2, "Test transcript"⟩]⟩)
    [("audio_path", PyValue.vStr "/a.mp3")] "/a.mp3"
    ⟨"Test transcript", some "en", some (21/2), [⟨0, 0, 21/2, "Test transcript"⟩]⟩
    rfl (by decide) rfl (Or.inr ⟨21/2, rfl, by norm_num⟩)
  simpa using h

/-- C8 counterexample: a relative, non-`~` path reaches the client (where the
existence check runs) unchanged and is not absolute — the adapter's
`expanduser` does not turn every path into an absolute one. -/
theorem execute_relative_path_stays_relative :
    (execute "/home/u" (fun _ => Except.error ⟨true, "ValueError", "x"⟩)
        [("audio_path", PyValue.vStr "rel.mp3")]).2 = some "rel.mp3" ∧
    isAbsolute "rel.mp3" = false := by
  constructor
  · decide
  · decide

/-- C8 (amended): for every non-existent audio path, `transcribe` fails with
a `fileNotFoundError` and performs zero network calls; the adapter always
hands the client exactly `expanduser home audio_path` (so the existence check
runs on the expanded path); and a `~/`-prefixed path expands to the
home-prefixed path, absolute whenever `home` is absolute. -/
theorem transcribe_not_found_and_tilde_expanded :
    (∀ (fs : FileSys) (backend : Nat → RemoteOutcome) (p : String) (max_retries : Nat),
      fs p = none →
      transcribe fs backend p max_retries =
        (.error (.fileNotFoundError ("Audio file not found: " ++ p)), 0)) ∧
    (∀ (home : String) (tf : String → Except PyExc Transcript) (input : Dict)
      (s : String), dictGet input "audio_path" = PyValue.vStr s → ¬ s = "" →
      (execute home tf input).2 = some (expanduser home s)) ∧
    (∀ home s : String, isAbsolute home = true →
      expanduser home ("~/" ++ s) = home ++ "/" ++ s ∧
      isAbsolute (home ++ "/" ++ s) = true) := by
  refine ⟨?_, ?_, ?_⟩
  · intro fs backend p max_retries h
    unfold transcribe
    rw [h]
  · intro home tf input s hs hne
    unfold execute
    rw [hs]
    cases htf : tf (expanduser home s) with
    | error e => simp [executeCore, hne, htf]
    | ok t =>
      cases hc : costOf t.duration with
      | error e => simp [executeCore, hne, htf, hc]
      | ok c => simp [executeCore, hne, htf, hc]
  · intro home s habs
    obtain ⟨l⟩ := s
    have hdata : ("~/" ++ String.mk l).data = '~' :: '/' :: l := by
      rw [String.data_append]
      rfl
    constructor
    · unfold expanduser
      rw [hdata]
      rfl
    · unfold isAbsolute at habs ⊢
      cases hd : home.data with
      | nil =>
        rw [hd] at habs
        simp at habs
      | cons c tl =>
        rw [hd] at habs
        have hdata2 : (home ++ "/" ++ String.mk l).data = c :: (tl ++ '/' :: l) := by
          rw [String.data_append, String.data_append, hd]
          simp
        rw [hdata2]
        simpa using habs

/-- Witness for C8 (amended): a missing file produces a not-found error with
zero attempts; the adapter hands the client the expanded path; and
`~/x.mp3` under home `/home/u` becomes the absolute `/home/u/x.mp3`. -/
theorem transcribe_not_found_and_tilde_expanded_witness :
    transcribe (fun _ => none) (fun _ => RemoteOutcome.transient "n") "/missing.mp3" 3 =
      (.error (.fileNotFoundError ("Audio file not found: " ++ "/missing.mp3")), 0) ∧
    (execute "/home/u" (fun _ => Except.error ⟨true, "ValueError", "x"⟩)
        [("audio_path", PyValue.vStr "~/x.mp3")]).2 =
      some (expanduser "/home/u" "~/x.mp3") ∧
    expanduser "/home/u" ("~/" ++ "x.mp3") = "/home/u" ++ "/" ++ "x.mp3" := by
  refine ⟨?_, ?_, ?_⟩
  · exact transcribe_not_found_and_tilde_expanded.1 _ _ "/missing.mp3" 3 rfl
  · exact transcribe_not_found_and_tilde_expanded.2.1 "/home/u" _ _ "~/x.mp3" rfl (by decide)
  · exact (transcribe_not_found_and_tilde_expanded.2.2 "/home/u" "x.mp3" (by decide)).1

/-- C9: constructing a `WhisperTool` creates the configured output directory
— the expanded `output_dir` (default `~/transcripts`) — together with all its
parent directories, as a filesystem effect of construction itself, before and
independently of any transcription (`whisperToolInit` mentions no backend). -/
theorem whisperToolInit_creates_output_dir (home : String) (config : Option Dict)
    (dirs : List (List String)) (s : String)
    (h : dictGetD (config.getD []) "output_dir" (.vStr DEFAULT_OUTPUT_DIR) =
      PyValue.vStr s) :
    whisperToolInit home config dirs =
      some (expanduser home s, dirPrefixes (expanduser home s) ++ dirs) ∧
    (∀ q ∈ dirPrefixes (expanduser home s),
      q ∈ dirPrefixes (expanduser home s) ++ dirs) ∧
    (config = none → s = DEFAULT_OUTPUT_DIR) := by
  refine ⟨?_, ?_, ?_⟩
  · unfold whisperToolInit
    rw [h]
    rfl
  · intro q hq
    exact List.mem_append_left _ hq
  · intro hc
    subst hc
    simp [dictGetD] at h
    exact h.symm

/-- Witness for C9: default config under home `/home/u` creates
`/home/u/transcripts` and its ancestors on an empty filesystem. -/
theorem whisperToolInit_creates_output_dir_witness :
    whisperToolInit "/home/u" none [] =
      some ("/home/u/transcripts", dirPrefixes "/home/u/transcripts") := by
  have h := (whisperToolInit_creates_output_dir "/home/u" none [] DEFAULT_OUTPUT_DIR rfl).1
  have he : expanduser "/home/u" DEFAULT_OUTPUT_DIR = "/home/u/transcripts" := by decide
  rw [he] at h
  simpa using h

end Whisper
